import Mathlib

/-!
Verification of the conversation/topic orchestration core of the
`stubborn-chatbot` repository, shallowly embedded in Lean 4.

Embedding conventions:
* Python strings are Lean `String`s; `str.strip()`, `str.lower()`,
  `str.split()` and the `in` containment test are modelled by `pyStrip`,
  `pyLower`, `pyWordsL` and `pyInL` below, working on the underlying
  character lists.
* Python exceptions are modelled with `Except Err`; each `raise` site
  becomes a `throw`/`.error` of the corresponding `Err` constructor.
* `random.choice(xs)` is modelled by `pyChoice xs i` for a caller-supplied
  index `i`, reduced modulo the list length (uniform choice over `xs`);
  the empty-list `IndexError` is preserved.
* `uuid4()` and `datetime.now()` are nondeterministic; identifiers and
  timestamps are modelled as caller-supplied `Nat` values where a claim
  depends on them and are elided otherwise.
-/

deriving instance DecidableEq for Except

namespace StubbornChatbot

/-! ## Error taxonomy (Python exception types raised by the core) -/

/-- Python exceptions appearing in the orchestration core. -/
inductive Err where
  | valueError (msg : String)
  | indexError (msg : String)
  | zeroDivisionError
  | llmServiceError (msg : String)
  | otherError (msg : String)
  deriving DecidableEq, Repr

/-! ## Python string primitives -/

/-- `str.strip()` on the character list: drop whitespace from both ends. -/
def pyStripL (l : List Char) : List Char :=
  ((l.dropWhile Char.isWhitespace).reverse.dropWhile Char.isWhitespace).reverse

/-- `str.strip()`. -/
def pyStrip (s : String) : String := ⟨pyStripL s.data⟩

/-- `str.lower()` (ASCII case folding, matching the repository's usage). -/
def pyLower (s : String) : String := ⟨s.data.map Char.toLower⟩

/-- `str.split()` grouping helper: accumulates the current word (reversed). -/
def wordsAux : List Char → List Char → List (List Char)
  | cur, [] => if cur = [] then [] else [cur.reverse]
  | cur, c :: cs =>
    if c.isWhitespace then
      if cur = [] then wordsAux [] cs else cur.reverse :: wordsAux [] cs
    else
      wordsAux (c :: cur) cs

/-- `str.split()` with no separator: maximal non-whitespace runs. -/
def pyWordsL (l : List Char) : List (List Char) := wordsAux [] l

/-- Python `needle in hay` on strings (contiguous substring containment). -/
def pyInL (needle : List Char) : List Char → Bool
  | [] => needle.isEmpty
  | c :: rest => needle.isPrefixOf (c :: rest) || pyInL needle rest

/-- `random.choice(xs)` with a caller-supplied index, uniform via `% length`;
raises `IndexError` on an empty list exactly as Python does. -/
def pyChoice : List α → Nat → Except Err α
  | [], _ => .error (.indexError "Cannot choose from an empty sequence")
  | a :: as, i => .ok ((a :: as).getD (i % (as.length + 1)) a)

/-! ## Entities (`src/core/entities/`) -/

/-- `Message.role`: `Literal["user", "bot"]` (`message.py`). -/
inductive Role where
  | user
  | bot
  deriving DecidableEq, Repr

/-- The Python string value of a role. -/
def Role.pyStr : Role → String
  | .user => "user"
  | .bot => "bot"

/-- `Message` entity (`message.py`).  `message_id`/`created_at` are
nondeterministic (`uuid4()`, `datetime.now()`) and unused by every claim,
so they are elided from the embedding. -/
structure Message where
  content : String
  role : Role
  deriving DecidableEq, Repr

/-- `Message.__init__` / `Message.create` (`message.py` lines 17-60): rejects
empty or whitespace-only content and stores the stripped content.  The
`role not in ["user", "bot"]` check is enforced by the `Role` type. -/
def Message.create (content : String) (role : Role) : Except Err Message :=
  if pyStrip content = "" then
    .error (.valueError "Message content cannot be empty")
  else
    .ok { content := pyStrip content, role := role }

/-- `DebateStance` enum (`debate_topic.py`). -/
inductive DebateStance where
  | for_
  | against
  deriving DecidableEq, Repr

/-- `DebateStance.value`. -/
def DebateStance.value : DebateStance → String
  | .for_ => "for"
  | .against => "against"

/-- Values stored in a topic's `metadata` dict.  The source annotates the
dict as `Dict[str, str]` but actually stores the boolean `True` under
`is_fallback`, so values are modelled as a string/boolean sum. -/
inductive MetaValue where
  | str (s : String)
  | bool (b : Bool)
  deriving DecidableEq, Repr

/-- `DebateTopic` entity (`debate_topic.py`).  `topic_id` and `created_at`
are `uuid4()`/`datetime.now()` values, modelled as caller-supplied `Nat`s
(claim C8 only needs that they are copied).  `metadata` is the Python dict
in insertion order. -/
structure DebateTopic where
  title : String
  description : String
  bot_stance : DebateStance
  key_arguments : List String
  topic_id : Nat
  created_at : Nat
  metadata : List (String × MetaValue)
  deriving DecidableEq, Repr

/-- `DebateTopic.__init__` (`debate_topic.py` lines 25-62): validates a
non-empty title, non-empty description and at least one key argument, then
stores the stripped title/description and a copy of the argument list. -/
def DebateTopic.mk? (title description : String) (bot_stance : DebateStance)
    (key_arguments : List String) (topic_id created_at : Nat)
    (metadata : List (String × MetaValue)) : Except Err DebateTopic :=
  if pyStrip title = "" then
    .error (.valueError "Topic title cannot be empty")
  else if pyStrip description = "" then
    .error (.valueError "Topic description cannot be empty")
  else if key_arguments = [] then
    .error (.valueError "Topic must have at least one key argument")
  else
    .ok { title := pyStrip title, description := pyStrip description,
          bot_stance := bot_stance, key_arguments := key_arguments,
          topic_id := topic_id, created_at := created_at, metadata := metadata }

/-- `Conversation` entity (`conversation.py`).  `created_at` is a
nondeterministic timestamp unused by every claim and is elided. -/
structure Conversation where
  conversation_id : Nat
  topic : Option DebateTopic
  messages : List Message
  deriving DecidableEq, Repr

/-- `Conversation.add_message` (`conversation.py` lines 55-75): enforces the
role-alternation business rule, appending only when the new message's role
differs from the last message's role. -/
def Conversation.add_message (c : Conversation) (m : Message) : Except Err Conversation :=
  match c.messages.getLast? with
  | some last =>
    if last.role = m.role then
      .error (.valueError ("Cannot add consecutive " ++ m.role.pyStr ++ " messages"))
    else
      .ok { c with messages := c.messages ++ [m] }
  | none => .ok { c with messages := c.messages ++ [m] }

/-- `Conversation.get_recent_messages` (`conversation.py` lines 86-99):
the Python slice `self._messages[-limit:]`.  Both call sites pass the
positive literals 5 and 6, so the `limit <= 0` guard never fires. -/
def Conversation.get_recent_messages (c : Conversation) (limit : Nat := 5) : List Message :=
  c.messages.drop (c.messages.length - limit)

/-- `Conversation.set_debate_topic` (`conversation.py` lines 118-130):
assigns the topic unconditionally — the entity performs no single-assignment
check (the `isinstance` guard is enforced by the type). -/
def Conversation.set_debate_topic (c : Conversation) (t : DebateTopic) : Conversation :=
  { c with topic := some t }

/-- `Conversation.has_topic` (`conversation.py` lines 132-134). -/
def Conversation.has_topic (c : Conversation) : Bool :=
  c.topic.isSome

/-! ## Predefined topics (`src/core/entities/predefined_topics.py`) -/

/-- `get_conspiracy_topics_data` (`predefined_topics.py` lines 13-81), built
through the validating constructor exactly as the source does.  The five
`uuid4()` ids are modelled as the indices 0-4 and the timestamps as 0. -/
def getConspiracyTopicsData : Except Err (List DebateTopic) := do
  let t0 ← DebateTopic.mk? "The Earth is actually flat, not round"
    "The Earth is not a sphere but a flat plane, and space agencies have been lying to us"
    .for_
    ["NASA photos are clearly doctored and fake",
     "Water is always flat - it would spill off a spinning ball Earth",
     "No one has ever felt the Earth spinning at 1000 mph",
     "The horizon always appears flat to the naked eye",
     "If Earth were spinning, planes couldn't land on runways moving at 1000 mph"]
    0 0 []
  let t1 ← DebateTopic.mk? "The 1969 moon landing was staged in Hollywood"
    "The Apollo moon landing was a hoax filmed on a movie set to win the space race"
    .for_
    ["The American flag appears to wave in the wind, but there's no wind on the moon",
     "No stars are visible in any of the moon landing photos",
     "The lighting appears to come from multiple sources, like studio lights",
     "The technology didn't exist in 1969 to safely travel to the moon",
     "The deadly radiation around Earth would have killed anyone trying to leave orbit"]
    1 0 []
  let t2 ← DebateTopic.mk? "World leaders are secretly reptilian aliens in disguise"
    "The global elite are shape-shifting reptilian beings from another dimension controlling humanity"
    .for_
    ["Many world leaders have been caught with pupils that change to vertical slits on camera",
     "Ancient civilizations worldwide depicted serpent gods ruling over humans",
     "The bloodlines of royal families trace back to these reptilian entities",
     "Their cold, calculating behavior is evidence of their reptilian nature",
     "Underground tunnel systems connect to their subterranean reptilian cities"]
    2 0 []
  let t3 ← DebateTopic.mk? "Vaccines are more dangerous than helpful"
    "Vaccines cause more harm than the diseases they claim to prevent"
    .for_
    ["Natural immunity is always superior to artificial immunity",
     "Vaccine ingredients include dangerous chemicals and heavy metals",
     "Big Pharma profits billions while hiding dangerous side effects",
     "Healthy diet and lifestyle provide better protection than vaccines",
     "Many diseases were already declining before vaccines were introduced"]
    3 0 []
  let t4 ← DebateTopic.mk? "Climate change is a hoax created by governments"
    "Global warming is a fabricated crisis designed to control people and economies"
    .for_
    ["Climate has always changed naturally throughout Earth's history",
     "Scientists manipulate data to support their funding and political agendas",
     "CO2 is plant food - more CO2 means better plant growth",
     "Climate models have consistently failed to make accurate predictions",
     "It's a scheme to impose carbon taxes and restrict individual freedoms"]
    4 0 []
  pure [t0, t1, t2, t3, t4]

/-- The value `get_conspiracy_topics_data()` evaluates to (all five
constructor calls succeed; see `getConspiracyTopicsData_eq`). -/
def fallbackTopics : List DebateTopic :=
  (getConspiracyTopicsData.toOption).getD []

/-! ## LLM collaborator model (`src/core/interfaces/llm_service.py`)

The LLM service is an external collaborator.  `generate_debate_topic` is the
interface method used by the topic service; `genReply` models the raw
`_client.chat.completions.create` call that `_generate_ai_response` performs
on a real (non-mock) service, returning the reply text.  `isMock` models the
structural `hasattr(self._llm_service, '_topics_data')` detection of the
lightweight stand-in. -/
structure LLMModel where
  isMock : Bool
  genTopic : String → Except Err DebateTopic
  genReply : String → Except Err String

/-! ## Topic service (`src/core/domain_services/topic_service.py`) -/

/-- `TopicService._fallback_intros` (`topic_service.py` lines 36-43). -/
def fallbackIntros : List String :=
  ["Speaking of that, I was just thinking about how",
   "You know what's fascinating? I recently read that",
   "That reminds me of something controversial -",
   "While we're talking, did you know that",
   "Here's something that might surprise you:",
   "I've been pondering this theory lately:"]

/-- `pure_greeting_patterns` (`topic_service.py` lines 63-71). -/
def pureGreetingPatterns : List String :=
  ["hi", "hello", "hey", "sup", "yo", "howdy",
   "how are you", "what's up", "whats up", "how do you do",
   "good morning", "good afternoon", "good evening",
   "nice to meet you", "pleased to meet you",
   "how's it going", "hows it going", "what up"]

/-- `substantial_words` (`topic_service.py` line 94). -/
def substantialWords : List String :=
  ["think", "believe", "love", "hate", "support", "oppose", "about", "regarding"]

/-- Python regex `\w` restricted to the ASCII range used by the source's
lowercased greeting words. -/
def isWordChar (c : Char) : Bool := c.isAlphanum || c = '_'

/-- `\b` boundary holding before the match, given the preceding character. -/
def boundaryBefore : Option Char → Bool
  | none => true
  | some c => !isWordChar c

/-- `\b` boundary holding after the match, given the remaining characters. -/
def boundaryAfter : List Char → Bool
  | [] => true
  | c :: _ => !isWordChar c

/-- `re.search(r'\b' + re.escape(word) + r'\b', text)` for a word made of
word characters: scan for an occurrence flanked by word boundaries. -/
def wbSearch (word : List Char) : Option Char → List Char → Bool
  | prev, [] => boundaryBefore prev && word.isPrefixOf ([] : List Char)
  | prev, c :: rest =>
    (boundaryBefore prev && word.isPrefixOf (c :: rest)
      && boundaryAfter ((c :: rest).drop word.length))
    || wbSearch word (some c) rest

/-- The second loop of `_is_casual_greeting` (`topic_service.py` lines
98-110): count distinct greeting-pattern occurrences, word-boundary matched
for single words and substring-matched for phrases. -/
def countGreetingElements (ml : List Char) : Nat :=
  pureGreetingPatterns.foldl
    (fun n p =>
      if pyInL [' '] p.data then
        if pyInL p.data ml then n + 1 else n
      else
        if wbSearch p.data none ml then n + 1 else n)
    0

/-- The first pattern loop of `_is_casual_greeting` (`topic_service.py`
lines 74-96).  `ml` is the lowercased stripped message, `words` its word
list.  The float comparison `pattern_words / total_words > 0.5` is modelled
exactly as `2 * pattern_words > total_words` (equivalent for the integer
operands involved), with Python's `ZeroDivisionError` preserved. -/
def greetingLoop (ml : List Char) (words : List (List Char)) :
    List String → Except Err Bool
  | [] => .ok false
  | p :: ps =>
    if p.data = ml then .ok true
    else if pyInL p.data ml then
      if words.length = 0 then .error .zeroDivisionError
      else if 2 * (pyWordsL p.data).length > words.length then .ok true
      else if p.data.isPrefixOf ml ∧ words.length ≤ 4 then .ok true
      else if p.data.isPrefixOf ml ∧ words.length ≤ 6 then
        if ¬ substantialWords.any (fun w => pyInL w.data (pyStripL (ml.drop p.data.length))) then
          .ok true
        else greetingLoop ml words ps
      else greetingLoop ml words ps
    else greetingLoop ml words ps

/-- `TopicService._is_casual_greeting` (`topic_service.py` lines 45-113). -/
def isCasualGreeting (message : String) : Except Err Bool :=
  let ml := pyStripL (pyLower message).data
  let words := pyWordsL ml
  match greetingLoop ml words pureGreetingPatterns with
  | .error e => .error e
  | .ok true => .ok true
  | .ok false => .ok (decide (2 ≤ countGreetingElements ml) && decide (words.length ≤ 8))

/-- `TopicService._get_fallback_topic_with_intro` (`topic_service.py` lines
153-176) together with `get_random_topic` (lines 144-151): pick a random
base topic and intro phrase, prepend the intro to the lowercased title and
construct a new topic copying every other field, with fallback metadata. -/
def getFallbackTopicWithIntro (topicIdx introIdx : Nat) : Except Err DebateTopic := do
  let base ← pyChoice fallbackTopics topicIdx
  let intro ← pyChoice fallbackIntros introIdx
  let enhancedTitle := intro ++ " " ++ pyLower base.title
  DebateTopic.mk? enhancedTitle base.description base.bot_stance
    base.key_arguments base.topic_id base.created_at
    [("is_fallback", .bool true), ("original_title", .str base.title)]

/-- `TopicService.generate_topic_for_message` (`topic_service.py` lines
115-142): `None` for casual greetings; otherwise the AI-generated topic,
falling back to a random predefined topic only on `LLMServiceError` (other
exceptions propagate, as in Python's `except LLMServiceError`). -/
def generateTopicForMessage (llm : Option LLMModel) (topicIdx introIdx : Nat)
    (userMessage : String) : Except Err (Option DebateTopic) :=
  match isCasualGreeting userMessage with
  | .error e => .error e
  | .ok true => .ok none
  | .ok false =>
    match llm with
    | some l =>
      match l.genTopic userMessage with
      | .ok t => .ok (some t)
      | .error (.llmServiceError _) =>
        (getFallbackTopicWithIntro topicIdx introIdx).map some
      | .error e => .error e
    | none => (getFallbackTopicWithIntro topicIdx introIdx).map some

/-! ## Use cases (`src/core/use_cases/`) -/

/-- Indices feeding every `random.choice` call site of one orchestration
turn (uniform choice is modelled as an arbitrary index, used modulo the
candidate-list length). -/
structure Rand where
  topicIdx : Nat := 0
  introIdx : Nat := 0
  mockArgIdx : Nat := 0
  mockStarterIdx : Nat := 0
  mockEndingIdx : Nat := 0
  tmplArgIdx : Nat := 0
  tmplIdx : Nat := 0

/-- The redirect line returned when no debate topic is assigned and topic
selection yields `None` (`start_conversation.py` lines 51-54 and the
character-identical literal in `continue_conversation.py` line 98). -/
def redirectMessage : String :=
  "I hear what you're saying, but I was really looking forward to a good debate with you. What's a topic you have strong opinions about?"

/-- `"support" if debate_topic.bot_stance.value == "for" else "oppose"`
(`start_conversation.py` line 60, `continue_conversation.py` line 90). -/
def stanceWord (s : DebateStance) : String :=
  if s.value = "for" then "support" else "oppose"

/-- The bot introduction utterance produced on topic assignment; this
f-string appears character-identically in `start_conversation.py` lines
61-65 and `continue_conversation.py` lines 91-95. -/
def debateIntro (t : DebateTopic) (arg0 : String) : String :=
  "I actually " ++ stanceWord t.bot_stance ++ " the idea that " ++ pyLower t.title
    ++ ". Here's why I believe this: " ++ arg0 ++ ". What do you think about that?"

/-- `topic.key_arguments[0]` with Python's `IndexError` preserved. -/
def firstArgument (t : DebateTopic) : Except Err String :=
  match t.key_arguments with
  | [] => .error (.indexError "list index out of range")
  | a :: _ => .ok a

/-- `StartConversationUseCase.execute` (`start_conversation.py` lines
20-76).  `fresh` models the `uuid4()` id of the newly created conversation.
The repository `save` stores the returned conversation value under its id;
it is modelled at the call sites that need repository state (`continue`). -/
def startExecute (llm : Option LLMModel) (r : Rand) (fresh : Nat)
    (initialMessage : String) : Except Err Conversation := do
  if pyStrip initialMessage = "" then
    throw (.valueError "Initial message cannot be empty")
  let conversation : Conversation := { conversation_id := fresh, topic := none, messages := [] }
  let userMessage ← Message.create (pyStrip initialMessage) .user
  let conversation ← conversation.add_message userMessage
  let debateTopic ← generateTopicForMessage llm r.topicIdx r.introIdx initialMessage
  let (botResponseContent, conversation) ←
    match debateTopic with
    | none => pure (redirectMessage, conversation)
    | some t => do
      let conversation := conversation.set_debate_topic t
      let arg0 ← firstArgument t
      pure (debateIntro t arg0, conversation)
  let botResponse ← Message.create botResponseContent .bot
  let conversation ← conversation.add_message botResponse
  pure conversation

/-- The prompt built by `ContinueConversationUseCase._generate_ai_response`
(`continue_conversation.py` lines 120-148) for the real-LLM path. -/
def buildPrompt (conversation : Conversation) (userMessage : String)
    (topic : DebateTopic) : String :=
  let recent := conversation.get_recent_messages 6
  let history := recent.dropLast.map fun m =>
    (if m.role = .user then "User" else "Bot") ++ ": " ++ m.content
  let historyContext :=
    if history = [] then "This is the start of our conversation."
    else String.intercalate "\n" history
  let stanceDescription :=
    "The bot " ++ (if topic.bot_stance = .for_ then "supports" else "opposes")
      ++ " the position: " ++ topic.title
  "You are debating the topic: \"" ++ topic.title ++ "\"\n\nYour stance: "
    ++ stanceDescription ++ "\n\nYour key arguments:\n"
    ++ String.intercalate "\n" (topic.key_arguments.map fun arg => "- " ++ arg)
    ++ "\n\nConversation history:\n" ++ historyContext
    ++ "\n\nThe user just said: \"" ++ userMessage
    ++ "\"\n\nGenerate a persuasive response that:\n1. Stays true to your stance on \""
    ++ topic.title
    ++ "\"\n2. Directly addresses the user's point\n3. Uses one of your key arguments strategically\n4. Asks a probing question to continue the debate\n5. Maintains an intellectual but passionate tone\n\nKeep your response to 2-3 sentences maximum. Be engaging and persuasive."

/-- The arguments whose first three lowercased keywords overlap the user's
lowercased message (`continue_conversation.py` lines 171-176). -/
def relevantArguments (topic : DebateTopic) (userMessage : String) : List String :=
  topic.key_arguments.filter fun arg =>
    ((pyWordsL (pyLower arg).data).take 3).any fun kw => pyInL kw (pyLower userMessage).data

/-- The "early" openers (`continue_conversation.py` lines 185-189). -/
def earlyStarters : List String :=
  ["That's exactly what I'd expect you to say, but",
   "I understand that perspective, however",
   "Many people think that way, but here's the thing:"]

/-- The "deep" openers (`continue_conversation.py` lines 191-196). -/
def deepStarters : List String :=
  ["You're still missing the key point:",
   "Let me put this differently:",
   "I can see you're not convinced yet, but",
   "You keep ignoring this crucial fact:"]

/-- The closing questions (`continue_conversation.py` lines 201-207). -/
def mockEndings : List String :=
  ["How do you explain that?",
   "What's your response to this evidence?",
   "Doesn't this change everything?",
   "Can you really deny this logic?",
   "How do you reconcile this with your position?"]

/-- `ContinueConversationUseCase._generate_enhanced_mock_response`
(`continue_conversation.py` lines 163-211): the heuristic strategy.
`relevant_arguments` and `message_count` are inlined at their use sites. -/
def generateEnhancedMockResponse (r : Rand) (conversation : Conversation)
    (userMessage : String) (topic : DebateTopic) : Except Err String := do
  let argument ←
    if relevantArguments topic userMessage ≠ [] then
      pyChoice (relevantArguments topic userMessage) r.mockArgIdx
    else pyChoice topic.key_arguments r.mockArgIdx
  let starter ← pyChoice
    (if (conversation.get_recent_messages).length ≤ 2 then earlyStarters
     else deepStarters) r.mockStarterIdx
  let ending ← pyChoice mockEndings r.mockEndingIdx
  pure (starter ++ " " ++ argument ++ " " ++ ending)

/-- The number of the argument's first three lowercased keywords occurring
in the user's lowercased message — the natural reading of the spec's
"key argument whose leading keywords best overlap the user's message". -/
def leadingOverlapScore (userMessage arg : String) : Nat :=
  (((pyWordsL (pyLower arg).data).take 3).filter
    fun kw => pyInL kw (pyLower userMessage).data).length

/-- Every string the heuristic strategy can output for a topic, over all
random seeds and conversation depths. -/
def allHeuristicOutputs (t : DebateTopic) : List String :=
  (earlyStarters ++ deepStarters).flatMap fun st =>
    t.key_arguments.flatMap fun arg =>
      mockEndings.map fun en => st ++ " " ++ arg ++ " " ++ en

/-- `ContinueConversationUseCase._generate_template_response`
(`continue_conversation.py` lines 213-228): the template strategy (the
`user_message` parameter is unused in the source as well). -/
def generateTemplateResponse (r : Rand) (topic : DebateTopic)
    (_userMessage : String := "") : Except Err String := do
  let argument ← pyChoice topic.key_arguments r.tmplArgIdx
  let templates :=
    ["Interesting point! But I still maintain that " ++ pyLower topic.title
       ++ ". Consider this: " ++ argument ++ ". How do you respond to that evidence?",
     "I see your perspective, but I have to disagree. " ++ argument
       ++ ". What's your take on this?",
     "That's a common viewpoint, but here's why I believe " ++ pyLower topic.title
       ++ ": " ++ argument ++ ". Doesn't this change your mind?",
     "I understand where you're coming from, but " ++ argument
       ++ ". How do you reconcile this with your position?"]
  pyChoice templates r.tmplIdx

/-- `ContinueConversationUseCase._generate_ai_response`
(`continue_conversation.py` lines 113-161): enhanced-mock logic when the
service is structurally detected as the stand-in, otherwise the raw client
call on the built prompt, with the reply text stripped. -/
def generateAiResponse (llm : LLMModel) (r : Rand) (conversation : Conversation)
    (userMessage : String) (topic : DebateTopic) : Except Err String :=
  if llm.isMock then
    generateEnhancedMockResponse r conversation userMessage topic
  else
    match llm.genReply (buildPrompt conversation userMessage topic) with
    | .ok text => .ok (pyStrip text)
    | .error e => .error e

/-- `ContinueConversationUseCase._generate_bot_response`
(`continue_conversation.py` lines 72-111).  Returns the reply content
together with the (possibly topic-assigned) conversation; only
`LLMServiceError` is caught by the `except` clause around the AI strategy. -/
def generateBotResponse (topicService : Option (Option LLMModel))
    (llm : Option LLMModel) (r : Rand) (conversation : Conversation)
    (userMessage : String) : Except Err (String × Conversation) :=
  match conversation.topic with
  | none =>
    match topicService with
    | some tsLlm =>
      match generateTopicForMessage tsLlm r.topicIdx r.introIdx userMessage with
      | .error e => .error e
      | .ok (some topic) =>
        let conversation := conversation.set_debate_topic topic
        match firstArgument topic with
        | .error e => .error e
        | .ok arg0 => .ok (debateIntro topic arg0, conversation)
      | .ok none => .ok (redirectMessage, conversation)
    | none => .ok (redirectMessage, conversation)
  | some topic =>
    match llm with
    | some l =>
      match generateAiResponse l r conversation userMessage topic with
      | .ok s => .ok (s, conversation)
      | .error (.llmServiceError _) =>
        match generateTemplateResponse r topic userMessage with
        | .ok s => .ok (s, conversation)
        | .error e => .error e
      | .error e => .error e
    | none =>
      match generateTemplateResponse r topic userMessage with
      | .ok s => .ok (s, conversation)
      | .error e => .error e

/-- The repository collaborator state: the in-memory map keyed by
conversation id (`conversation_memory.py`), as an association list. -/
abbrev Repo := List (Nat × Conversation)

/-- `get_by_id`. -/
def repoGet (repo : Repo) (i : Nat) : Option Conversation :=
  (List.lookup i repo)

/-- `save`: dict assignment, overwriting any prior value for the id. -/
def repoSave (repo : Repo) (c : Conversation) : Repo :=
  (c.conversation_id, c) :: (repo.filter fun p => p.1 ≠ c.conversation_id)

/-- `ContinueConversationUseCase.execute` (`continue_conversation.py` lines
24-70).  `uuidParse` models `uuid.UUID(conversation_id)`, returning `none`
exactly when the Python constructor raises `ValueError`.  The result pairs
the Python return/raise outcome with the repository state after the call. -/
def continueExecute (topicService : Option (Option LLMModel))
    (llm : Option LLMModel) (uuidParse : String → Option Nat) (r : Rand)
    (repo : Repo) (conversationId userMessage : String) :
    Except Err Conversation × Repo :=
  if pyStrip userMessage = "" then
    (.error (.valueError "User message cannot be empty"), repo)
  else
    match uuidParse conversationId with
    | none =>
      (.error (.valueError ("Invalid conversation ID format: " ++ conversationId)), repo)
    | some uuid =>
      match repoGet repo uuid with
      | none =>
        (.error (.valueError ("Conversation with ID " ++ conversationId ++ " not found")), repo)
      | some conversation =>
        match Message.create (pyStrip userMessage) .user with
        | .error e => (.error e, repo)
        | .ok newUserMessage =>
          match conversation.add_message newUserMessage with
          | .error e => (.error e, repo)
          | .ok conversation =>
            match generateBotResponse topicService llm r conversation userMessage with
            | .error e => (.error e, repo)
            | .ok (botResponseContent, conversation) =>
              match Message.create botResponseContent .bot with
              | .error e => (.error e, repo)
              | .ok botResponse =>
                match conversation.add_message botResponse with
                | .error e => (.error e, repo)
                | .ok conversation =>
                  (.ok conversation, repoSave repo conversation)

/-! ## Lemmas about the string primitives -/

theorem head?_dropWhile_not {p : Char → Bool} :
    ∀ {l : List Char} {c : Char}, (l.dropWhile p).head? = some c → p c = false := by
  intro l
  induction l with
  | nil => intro c h; simp [List.dropWhile] at h
  | cons x xs ih =>
    intro c h
    rw [List.dropWhile_cons] at h
    by_cases hx : p x = true
    · exact ih (by simpa [hx] using h)
    · rw [if_neg hx, List.head?_cons, Option.some.injEq] at h
      subst h
      exact Bool.not_eq_true _ ▸ hx

theorem dropWhile_eq_self_of_head? {p : Char → Bool} {l : List Char} {c : Char}
    (hd : l.head? = some c) (hc : p c = false) : l.dropWhile p = l := by
  cases l with
  | nil => rfl
  | cons x xs =>
    rw [List.head?_cons, Option.some.injEq] at hd
    subst hd
    rw [List.dropWhile_cons, if_neg (by simp [hc])]

theorem mem_dropWhile_of_not {p : Char → Bool} :
    ∀ {l : List Char} {c : Char}, c ∈ l → p c = false → c ∈ l.dropWhile p := by
  intro l
  induction l with
  | nil => intro c h; simp at h
  | cons x xs ih =>
    intro c h hc
    rw [List.dropWhile_cons]
    by_cases hx : p x = true
    · rw [if_pos hx]
      rcases List.mem_cons.mp h with h | h
      · subst h; rw [hx] at hc; cases hc
      · exact ih h hc
    · rw [if_neg hx]; exact h

/-- Both ends of a character list hold no whitespace. -/
def StrippedL (l : List Char) : Prop :=
  (∀ c ∈ l.head?, c.isWhitespace = false) ∧ (∀ c ∈ l.getLast?, c.isWhitespace = false)

theorem pyStripL_stripped (l : List Char) : StrippedL (pyStripL l) := by
  unfold pyStripL
  set l₁ := l.dropWhile Char.isWhitespace with hl₁
  set r := l₁.reverse.dropWhile Char.isWhitespace with hr
  constructor
  · intro c hc
    rw [Option.mem_def, List.head?_reverse] at hc
    obtain ⟨t, ht⟩ := List.dropWhile_suffix (l := l₁.reverse) Char.isWhitespace
    have hgl : (t ++ r).getLast? = some c := by
      rw [List.getLast?_append, hc]; rfl
    rw [ht, List.getLast?_reverse] at hgl
    exact head?_dropWhile_not hgl
  · intro c hc
    rw [Option.mem_def, List.getLast?_reverse] at hc
    exact head?_dropWhile_not hc

theorem pyStripL_eq_self {l : List Char} (h : StrippedL l) : pyStripL l = l := by
  obtain ⟨h1, h2⟩ := h
  cases hl : l.head? with
  | none =>
    have : l = [] := by cases l with
      | nil => rfl
      | cons x xs => simp at hl
    subst this; rfl
  | some c =>
    have hdrop : l.dropWhile Char.isWhitespace = l :=
      dropWhile_eq_self_of_head? hl (h1 c (Option.mem_def.mpr hl))
    unfold pyStripL
    rw [hdrop]
    cases hg : l.getLast? with
    | none =>
      have : l = [] := by
        cases l with
        | nil => rfl
        | cons x xs => exact absurd hg (by simp [List.getLast?_eq_getLast])
      subst this; rfl
    | some d =>
      have hrev : l.reverse.head? = some d := by rw [List.head?_reverse, hg]
      have hdrop2 : l.reverse.dropWhile Char.isWhitespace = l.reverse :=
        dropWhile_eq_self_of_head? hrev (h2 d (Option.mem_def.mpr hg))
      rw [hdrop2, List.reverse_reverse]

theorem pyStripL_ne_nil {l : List Char} {c : Char} (hc : c ∈ l)
    (hw : c.isWhitespace = false) : pyStripL l ≠ [] := by
  intro h
  unfold pyStripL at h
  rw [List.reverse_eq_nil_iff] at h
  have hc1 : c ∈ l.dropWhile Char.isWhitespace := mem_dropWhile_of_not hc hw
  have hc2 : c ∈ (l.dropWhile Char.isWhitespace).reverse := List.mem_reverse.mpr hc1
  have hc3 := mem_dropWhile_of_not hc2 hw
  rw [h] at hc3
  simp at hc3

theorem pyStripL_idem (l : List Char) : pyStripL (pyStripL l) = pyStripL l :=
  pyStripL_eq_self (pyStripL_stripped l)

theorem pyStrip_data (s : String) : (pyStrip s).data = pyStripL s.data := rfl

theorem pyStrip_eq_empty_iff {s : String} : pyStrip s = "" ↔ pyStripL s.data = [] := by
  constructor
  · intro h; have := congrArg String.data h; simpa [pyStrip_data] using this
  · intro h; apply String.ext; simpa [pyStrip_data] using h

theorem pyStrip_idem (s : String) : pyStrip (pyStrip s) = pyStrip s := by
  apply String.ext
  simp [pyStrip_data, pyStripL_idem]

/-! ## Lemmas about `pyInL`, `pyChoice` and `pyWordsL` -/

theorem pyInL_iff {n : List Char} : ∀ {h : List Char}, pyInL n h = true ↔ n <:+: h := by
  intro h
  induction h with
  | nil => simp [pyInL, List.isEmpty_iff, List.infix_nil]
  | cons c rest ih =>
    rw [pyInL, Bool.or_eq_true, ih, List.infix_cons_iff, List.isPrefixOf_iff_prefix]

theorem pyChoice_ok_mem {l : List α} {i : Nat} {a : α}
    (h : pyChoice l i = .ok a) : a ∈ l := by
  cases l with
  | nil => cases h
  | cons x xs =>
    rw [pyChoice, Except.ok.injEq] at h
    subst h
    have hlt : i % (xs.length + 1) < (x :: xs).length := by
      simp only [List.length_cons]
      exact Nat.mod_lt _ (Nat.succ_pos _)
    rw [List.getD_eq_getElem _ _ hlt]
    exact List.getElem_mem hlt

theorem pyChoice_ok_of_ne_nil {l : List α} (h : l ≠ []) (i : Nat) :
    ∃ a, pyChoice l i = .ok a ∧ a ∈ l := by
  cases l with
  | nil => exact absurd rfl h
  | cons x xs => exact ⟨_, rfl, pyChoice_ok_mem rfl⟩

theorem wordsAux_eq_nil :
    ∀ {l cur : List Char}, wordsAux cur l = [] →
      cur = [] ∧ ∀ c ∈ l, c.isWhitespace = true := by
  intro l
  induction l with
  | nil =>
    intro cur h
    rw [wordsAux] at h
    by_cases hc : cur = []
    · exact ⟨hc, by simp⟩
    · rw [if_neg hc] at h; cases h
  | cons x xs ih =>
    intro cur h
    rw [wordsAux] at h
    by_cases hx : x.isWhitespace = true
    · rw [if_pos (by simp [hx])] at h
      by_cases hc : cur = []
      · rw [if_pos hc] at h
        obtain ⟨-, hall⟩ := ih h
        refine ⟨hc, ?_⟩
        intro c hcmem
        rcases List.mem_cons.mp hcmem with rfl | hmem
        · exact hx
        · exact hall c hmem
      · rw [if_neg hc] at h; cases h
    · rw [if_neg (by simpa using hx)] at h
      obtain ⟨habs, -⟩ := ih h
      cases habs

theorem pyWordsL_eq_nil {l : List Char} (h : pyWordsL l = []) :
    ∀ c ∈ l, c.isWhitespace = true :=
  (wordsAux_eq_nil h).2

/-! ## Role alternation -/

/-- The spec's invariant: no two adjacent messages share a role. -/
def alternating (l : List Message) : Prop :=
  List.Chain' (fun a b => a.role ≠ b.role) l

theorem add_message_ok_iff {c : Conversation} {m : Message} {c' : Conversation} :
    c.add_message m = .ok c' ↔
      ((∀ last ∈ c.messages.getLast?, last.role ≠ m.role) ∧
        c' = { c with messages := c.messages ++ [m] }) := by
  unfold Conversation.add_message
  split
  next last hg =>
    by_cases h : last.role = m.role
    · rw [if_pos h]
      constructor
      · intro hfalse; cases hfalse
      · rintro ⟨hcond, -⟩
        exact absurd h (hcond last (Option.mem_def.mpr hg))
    · rw [if_neg h]
      constructor
      · intro hok
        refine ⟨?_, (Except.ok.inj hok).symm⟩
        intro x hx
        rw [Option.mem_def, hg, Option.some.injEq] at hx
        subst hx; exact h
      · rintro ⟨-, rfl⟩; rfl
  next hg =>
    constructor
    · intro h
      exact ⟨by simp [hg], (Except.ok.inj h).symm⟩
    · rintro ⟨-, rfl⟩; rfl

theorem add_message_same_role {c : Conversation} {m : Message} {last : Message}
    (hg : c.messages.getLast? = some last) (h : last.role = m.role) :
    c.add_message m =
      .error (.valueError ("Cannot add consecutive " ++ m.role.pyStr ++ " messages")) := by
  unfold Conversation.add_message
  split
  next last' hg' =>
    rw [hg] at hg'
    injection hg' with hh
    subst hh
    rw [if_pos h]
  next hg' =>
    rw [hg] at hg'
    cases hg'

theorem alternating_append_singleton {l : List Message} {m : Message}
    (h : alternating l) (hl : ∀ x ∈ l.getLast?, x.role ≠ m.role) :
    alternating (l ++ [m]) := by
  rw [alternating, List.chain'_append]
  refine ⟨h, List.chain'_singleton m, ?_⟩
  intro x hx y hy
  rw [List.head?_cons, Option.mem_def, Option.some.injEq] at hy
  subst hy
  exact hl x hx

theorem alternating_add_message {c : Conversation} {m : Message} {c' : Conversation}
    (h : alternating c.messages) (hok : c.add_message m = .ok c') :
    alternating c'.messages := by
  obtain ⟨hcond, rfl⟩ := add_message_ok_iff.mp hok
  exact alternating_append_singleton h hcond

theorem alternating_iff_get {l : List Message} :
    alternating l ↔ ∀ (i : Nat) (h : i + 1 < l.length),
      (l.get ⟨i, Nat.lt_of_succ_lt h⟩).role ≠ (l.get ⟨i + 1, h⟩).role := by
  rw [alternating, List.chain'_iff_get]
  constructor
  · intro H i h
    exact H i (by omega)
  · intro H i h
    exact H i (by omega)

/-! ## Shape lemmas for the response generator -/

theorem generateBotResponse_ok_conv {ts : Option (Option LLMModel)}
    {llm : Option LLMModel} {r : Rand} {c : Conversation} {msg s : String}
    {c₂ : Conversation} (h : generateBotResponse ts llm r c msg = .ok (s, c₂)) :
    c₂ = c ∨ ∃ t, c.topic = none ∧ c₂ = c.set_debate_topic t := by
  unfold generateBotResponse at h
  split at h
  · split at h
    · split at h
      · cases h
      · split at h
        · cases h
        · exact Or.inr ⟨_, by assumption, (Prod.mk.injEq .. ▸ Except.ok.inj h).2.symm⟩
      · exact Or.inl (Prod.mk.inj (Except.ok.inj h)).2.symm
    · exact Or.inl (Prod.mk.inj (Except.ok.inj h)).2.symm
  · split at h
    · split at h
      · exact Or.inl (Prod.mk.inj (Except.ok.inj h)).2.symm
      · split at h
        · exact Or.inl (Prod.mk.inj (Except.ok.inj h)).2.symm
        · cases h
      · cases h
    · split at h
      · exact Or.inl (Prod.mk.inj (Except.ok.inj h)).2.symm
      · cases h

theorem generateBotResponse_topic_some {ts : Option (Option LLMModel)}
    {llm : Option LLMModel} {r : Rand} {c : Conversation} {msg s : String}
    {c₂ : Conversation} {t : DebateTopic} (ht : c.topic = some t)
    (h : generateBotResponse ts llm r c msg = .ok (s, c₂)) : c₂ = c := by
  rcases generateBotResponse_ok_conv h with h' | ⟨t', hnone, -⟩
  · exact h'
  · rw [ht] at hnone; cases hnone

theorem generateBotResponse_messages {ts : Option (Option LLMModel)}
    {llm : Option LLMModel} {r : Rand} {c : Conversation} {msg s : String}
    {c₂ : Conversation} (h : generateBotResponse ts llm r c msg = .ok (s, c₂)) :
    c₂.messages = c.messages ∧ c₂.conversation_id = c.conversation_id := by
  rcases generateBotResponse_ok_conv h with rfl | ⟨t, -, rfl⟩
  · exact ⟨rfl, rfl⟩
  · exact ⟨rfl, rfl⟩

/-! ## Totality of the greeting classifier -/

theorem greetingLoop_ok {ml : List Char} :
    ∀ {ps : List String},
      (∀ p ∈ ps, p.data ≠ [] ∧ ∀ c ∈ p.data.head?, c.isWhitespace = false) →
      ∃ b, greetingLoop ml (pyWordsL ml) ps = .ok b := by
  intro ps
  induction ps with
  | nil => exact fun _ => ⟨false, rfl⟩
  | cons p ps ih =>
    intro hps
    obtain ⟨hpne, hphd⟩ := hps p (List.mem_cons_self p ps)
    obtain ⟨c, cs, hdata⟩ : ∃ c cs, p.data = c :: cs := by
      cases hd : p.data with
      | nil => exact absurd hd hpne
      | cons x xs => exact ⟨x, xs, rfl⟩
    have hw : c.isWhitespace = false := by
      apply hphd
      rw [hdata, List.head?_cons]
      rfl
    have hrest := ih fun q hq => hps q (List.mem_cons_of_mem p hq)
    rw [greetingLoop]
    by_cases h1 : p.data = ml
    · exact ⟨true, by rw [if_pos h1]⟩
    rw [if_neg h1]
    by_cases h2 : pyInL p.data ml = true
    · rw [if_pos h2]
      have hne : ¬ (pyWordsL ml).length = 0 := by
        intro h0
        have hall := pyWordsL_eq_nil (List.length_eq_zero.mp h0)
        have hcmem : c ∈ ml :=
          (pyInL_iff.mp h2).subset (hdata ▸ List.mem_cons_self c cs)
        rw [hall c hcmem] at hw
        cases hw
      rw [if_neg hne]
      by_cases h3 : 2 * (pyWordsL p.data).length > (pyWordsL ml).length
      · exact ⟨true, by rw [if_pos h3]⟩
      rw [if_neg h3]
      by_cases h4 : p.data.isPrefixOf ml = true ∧ (pyWordsL ml).length ≤ 4
      · exact ⟨true, by rw [if_pos h4]⟩
      rw [if_neg h4]
      by_cases h5 : p.data.isPrefixOf ml = true ∧ (pyWordsL ml).length ≤ 6
      · rw [if_pos h5]
        by_cases h6 : ¬ substantialWords.any
            (fun w => pyInL w.data (pyStripL (ml.drop p.data.length))) = true
        · exact ⟨true, by rw [if_pos h6]⟩
        · rw [if_neg h6]; exact hrest
      · rw [if_neg h5]; exact hrest
    · rw [if_neg h2]; exact hrest

theorem isCasualGreeting_ok (message : String) :
    ∃ b, isCasualGreeting message = .ok b := by
  have hpat : ∀ p ∈ pureGreetingPatterns,
      p.data ≠ [] ∧ ∀ c ∈ p.data.head?, c.isWhitespace = false := by decide
  obtain ⟨b, hb⟩ :=
    @greetingLoop_ok (pyStripL (pyLower message).data) pureGreetingPatterns hpat
  simp only [isCasualGreeting]
  rw [hb]
  cases b with
  | true => exact ⟨true, rfl⟩
  | false => exact ⟨_, rfl⟩

/-! ## The introduction utterance -/

theorem debateIntro_head? (t : DebateTopic) (arg0 : String) :
    (debateIntro t arg0).data.head? = some 'I' := rfl

theorem debateIntro_getLast? (t : DebateTopic) (arg0 : String) :
    (debateIntro t arg0).data.getLast? = some '?' := by
  unfold debateIntro
  rw [String.data_append, List.getLast?_append]
  rfl

theorem debateIntro_stripped (t : DebateTopic) (arg0 : String) :
    StrippedL (debateIntro t arg0).data := by
  constructor
  · intro c hc
    rw [Option.mem_def, debateIntro_head?, Option.some.injEq] at hc
    subst hc; rfl
  · intro c hc
    rw [Option.mem_def, debateIntro_getLast?, Option.some.injEq] at hc
    subst hc; rfl

theorem pyStrip_debateIntro (t : DebateTopic) (arg0 : String) :
    pyStrip (debateIntro t arg0) = debateIntro t arg0 :=
  String.ext (pyStripL_eq_self (debateIntro_stripped t arg0))

theorem pyStrip_debateIntro_ne_empty (t : DebateTopic) (arg0 : String) :
    pyStrip (debateIntro t arg0) ≠ "" := by
  rw [pyStrip_debateIntro]
  intro h
  have h2 : (debateIntro t arg0).data.head? = ("" : String).data.head? := by rw [h]
  rw [debateIntro_head?] at h2
  exact Option.noConfusion (h2.trans rfl)

theorem debateIntro_contains_arg (t : DebateTopic) (arg0 : String) :
    arg0.data <:+: (debateIntro t arg0).data := by
  refine ⟨("I actually " ++ stanceWord t.bot_stance ++ " the idea that "
    ++ pyLower t.title ++ ". Here's why I believe this: ").data,
    (". What do you think about that?").data, ?_⟩
  simp [debateIntro, String.data_append, List.append_assoc]

theorem debateIntro_contains_stanceWord (t : DebateTopic) (arg0 : String) :
    (stanceWord t.bot_stance).data <:+: (debateIntro t arg0).data := by
  refine ⟨("I actually ").data,
    (" the idea that " ++ pyLower t.title ++ ". Here's why I believe this: "
      ++ arg0 ++ ". What do you think about that?").data, ?_⟩
  simp [debateIntro, String.data_append, List.append_assoc]

theorem pyStrip_redirectMessage : pyStrip redirectMessage = redirectMessage := by decide

theorem pyStrip_redirectMessage_ne_empty : pyStrip redirectMessage ≠ "" := by decide

/-! ## The fallback topic -/

theorem exceptBind_ok {α β : Type} (a : α) (f : α → Except Err β) :
    (Except.ok a : Except Err α) >>= f = f a := rfl

theorem exceptPure_bind {α β : Type} (a : α) (f : α → Except Err β) :
    (pure a : Except Err α) >>= f = f a := rfl

theorem exceptBind_error {α β : Type} (e : Err) (f : α → Except Err β) :
    (Except.error e : Except Err α) >>= f = .error e := rfl

theorem mk?_ok {title description : String} {st : DebateStance} {args : List String}
    {i ti : Nat} {md : List (String × MetaValue)} (h1 : ¬ pyStrip title = "")
    (h2 : ¬ pyStrip description = "") (h3 : ¬ args = []) :
    DebateTopic.mk? title description st args i ti md =
      .ok { title := pyStrip title, description := pyStrip description,
            bot_stance := st, key_arguments := args, topic_id := i,
            created_at := ti, metadata := md } := by
  unfold DebateTopic.mk?
  rw [if_neg h1, if_neg h2, if_neg h3]

theorem getFallbackTopicWithIntro_spec (ti ii : Nat) :
    ∃ base ∈ fallbackTopics, ∃ intro ∈ fallbackIntros, ∃ t,
      getFallbackTopicWithIntro ti ii = .ok t ∧
      t.title = intro ++ " " ++ pyLower base.title ∧
      t.description = base.description ∧
      t.bot_stance = base.bot_stance ∧
      t.key_arguments = base.key_arguments ∧
      t.topic_id = base.topic_id ∧
      t.created_at = base.created_at ∧
      t.metadata = [("is_fallback", .bool true), ("original_title", .str base.title)] := by
  have hbase : ∀ b ∈ fallbackTopics,
      pyStrip b.description = b.description ∧ ¬ pyStrip b.description = "" ∧
      ¬ b.key_arguments = [] ∧ ¬ (pyLower b.title).data = [] ∧
      (∀ c ∈ (pyLower b.title).data.getLast?, c.isWhitespace = false) := by decide
  have hintro : ∀ i ∈ fallbackIntros,
      ¬ i.data = [] ∧ (∀ c ∈ i.data.head?, c.isWhitespace = false) := by decide
  obtain ⟨base, hb, hbmem⟩ := pyChoice_ok_of_ne_nil (l := fallbackTopics) (by decide) ti
  obtain ⟨intro, hi, himem⟩ := pyChoice_ok_of_ne_nil (l := fallbackIntros) (by decide) ii
  obtain ⟨hdesc, hdesc', hargs, hlt, hltw⟩ := hbase base hbmem
  obtain ⟨hint, hintw⟩ := hintro intro himem
  refine ⟨base, hbmem, intro, himem, ?_⟩
  -- the enhanced title is already stripped: it starts with the intro's
  -- non-whitespace head and ends with the lowercased title's last character
  have hhd : ∃ c, (intro ++ " " ++ pyLower base.title).data.head? = some c
      ∧ c.isWhitespace = false := by
    obtain ⟨c0, hc0⟩ : ∃ c0, intro.data.head? = some c0 := by
      cases hh : intro.data.head? with
      | none => exact absurd (List.head?_eq_none_iff.mp hh) hint
      | some c0 => exact ⟨c0, rfl⟩
    refine ⟨c0, ?_, hintw c0 (Option.mem_def.mpr hc0)⟩
    rw [String.data_append, List.head?_append, String.data_append,
      List.head?_append, hc0]
    rfl
  have hlast : ∃ c, (intro ++ " " ++ pyLower base.title).data.getLast? = some c
      ∧ c.isWhitespace = false := by
    obtain ⟨c1, hc1⟩ : ∃ c1, (pyLower base.title).data.getLast? = some c1 := by
      cases hh : (pyLower base.title).data.getLast? with
      | none => exact absurd (List.getLast?_eq_none_iff.mp hh) hlt
      | some c1 => exact ⟨c1, rfl⟩
    refine ⟨c1, ?_, hltw c1 (Option.mem_def.mpr hc1)⟩
    rw [String.data_append, List.getLast?_append, hc1]
    rfl
  obtain ⟨ch, hch, hchw⟩ := hhd
  obtain ⟨cl, hcl, hclw⟩ := hlast
  have hstripped : StrippedL (intro ++ " " ++ pyLower base.title).data := by
    constructor
    · intro c hc
      rw [Option.mem_def, hch, Option.some.injEq] at hc; subst hc; exact hchw
    · intro c hc
      rw [Option.mem_def, hcl, Option.some.injEq] at hc; subst hc; exact hclw
  have htitle : pyStrip (intro ++ " " ++ pyLower base.title)
      = intro ++ " " ++ pyLower base.title :=
    String.ext (pyStripL_eq_self hstripped)
  have htitle' : ¬ pyStrip (intro ++ " " ++ pyLower base.title) = "" := by
    rw [htitle]
    intro h
    have h2 : (intro ++ " " ++ pyLower base.title).data.head?
        = ("" : String).data.head? := by rw [h]
    rw [hch] at h2
    exact Option.noConfusion (h2.trans rfl)
  have hmk : DebateTopic.mk? (intro ++ " " ++ pyLower base.title) base.description
      base.bot_stance base.key_arguments base.topic_id base.created_at
      [("is_fallback", .bool true), ("original_title", .str base.title)] = .ok
      { title := intro ++ " " ++ pyLower base.title,
        description := base.description, bot_stance := base.bot_stance,
        key_arguments := base.key_arguments, topic_id := base.topic_id,
        created_at := base.created_at,
        metadata := [("is_fallback", .bool true),
                     ("original_title", .str base.title)] } := by
    rw [mk?_ok htitle' hdesc' hargs, htitle, hdesc]
  have hrun : getFallbackTopicWithIntro ti ii
      = DebateTopic.mk? (intro ++ " " ++ pyLower base.title) base.description
          base.bot_stance base.key_arguments base.topic_id base.created_at
          [("is_fallback", .bool true), ("original_title", .str base.title)] := by
    unfold getFallbackTopicWithIntro
    rw [hb, exceptBind_ok, hi, exceptBind_ok]
  exact ⟨_, hrun.trans hmk, rfl, rfl, rfl, rfl, rfl, rfl, rfl⟩

/-! ## Running the start use case -/

theorem Message.create_ok {s : String} (role : Role) (hne : ¬ pyStrip s = "") :
    Message.create s role = .ok { content := pyStrip s, role := role } := by
  unfold Message.create
  rw [if_neg hne]

theorem Message.create_stripped {s : String} (role : Role) (hne : ¬ pyStrip s = "") :
    Message.create (pyStrip s) role = .ok { content := pyStrip s, role := role } := by
  rw [Message.create_ok role (by rw [pyStrip_idem]; exact hne), pyStrip_idem]

/-- Complete case analysis of one run of `StartConversationUseCase.execute`
on a non-blank initial message, driven by the topic-selection outcome. -/
theorem startExecute_run (llm : Option LLMModel) (r : Rand) (fresh : Nat)
    (msg : String) (hne : ¬ pyStrip msg = "") :
    (∃ e, generateTopicForMessage llm r.topicIdx r.introIdx msg = .error e ∧
      startExecute llm r fresh msg = .error e) ∨
    (generateTopicForMessage llm r.topicIdx r.introIdx msg = .ok none ∧
      startExecute llm r fresh msg = .ok
        { conversation_id := fresh, topic := none,
          messages := [{ content := pyStrip msg, role := .user },
                       { content := redirectMessage, role := .bot }] }) ∨
    (∃ t, generateTopicForMessage llm r.topicIdx r.introIdx msg = .ok (some t) ∧
      ((t.key_arguments = [] ∧
         startExecute llm r fresh msg = .error (.indexError "list index out of range")) ∨
       (∃ arg0 rest, t.key_arguments = arg0 :: rest ∧
         startExecute llm r fresh msg = .ok
           { conversation_id := fresh, topic := some t,
             messages := [{ content := pyStrip msg, role := .user },
                          { content := debateIntro t arg0, role := .bot }] }))) := by
  have hadd1 : Conversation.add_message
      { conversation_id := fresh, topic := none, messages := [] }
      { content := pyStrip msg, role := .user } = .ok
      { conversation_id := fresh, topic := none,
        messages := [{ content := pyStrip msg, role := .user }] } := rfl
  unfold startExecute
  rw [if_neg hne]
  simp only [exceptPure_bind]
  rw [Message.create_stripped .user hne]
  simp only [exceptBind_ok]
  rw [hadd1]
  simp only [exceptBind_ok]
  cases hg : generateTopicForMessage llm r.topicIdx r.introIdx msg with
  | error e =>
    exact Or.inl ⟨e, rfl, rfl⟩
  | ok o =>
    cases o with
    | none =>
      refine Or.inr (Or.inl ⟨rfl, ?_⟩)
      have hredir : Message.create redirectMessage .bot
          = .ok { content := redirectMessage, role := .bot } := by
        rw [Message.create_ok .bot pyStrip_redirectMessage_ne_empty,
          pyStrip_redirectMessage]
      simp only [exceptBind_ok, exceptPure_bind]
      rw [hredir]
      simp only [exceptBind_ok]
      rfl
    | some t =>
      refine Or.inr (Or.inr ⟨t, rfl, ?_⟩)
      cases hargs : t.key_arguments with
      | nil =>
        refine Or.inl ⟨rfl, ?_⟩
        have hfa : firstArgument t = .error (.indexError "list index out of range") := by
          unfold firstArgument
          rw [hargs]
        simp only [exceptBind_ok, exceptPure_bind]
        rw [hfa]
        rfl
      | cons arg0 rest =>
        refine Or.inr ⟨arg0, rest, rfl, ?_⟩
        have hfa : firstArgument t = .ok arg0 := by
          unfold firstArgument
          rw [hargs]
        have hbot : Message.create (debateIntro t arg0) .bot
            = .ok { content := debateIntro t arg0, role := .bot } := by
          rw [Message.create_ok .bot (pyStrip_debateIntro_ne_empty t arg0),
            pyStrip_debateIntro]
        simp only [exceptBind_ok, exceptPure_bind]
        rw [hfa]
        simp only [exceptBind_ok, exceptPure_bind]
        rw [hbot]
        simp only [exceptBind_ok]
        rfl

/-! ## Running the continue use case -/

/-- Inversion of a successful `ContinueConversationUseCase.execute` run. -/
theorem continueExecute_ok_inv {ts : Option (Option LLMModel)}
    {llm : Option LLMModel} {up : String → Option Nat} {r : Rand} {repo : Repo}
    {cid msg : String} {c' : Conversation} {repo' : Repo}
    (h : continueExecute ts llm up r repo cid msg = (.ok c', repo')) :
    ¬ pyStrip msg = "" ∧ ∃ u conv conv1 s conv2 botMsg,
      up cid = some u ∧ repoGet repo u = some conv ∧
      conv.add_message { content := pyStrip msg, role := .user } = .ok conv1 ∧
      generateBotResponse ts llm r conv1 msg = .ok (s, conv2) ∧
      Message.create s .bot = .ok botMsg ∧
      conv2.add_message botMsg = .ok c' ∧
      repo' = repoSave repo c' := by
  unfold continueExecute at h
  split at h
  · exact absurd h (by simp)
  next hne =>
  refine ⟨hne, ?_⟩
  split at h
  · exact absurd h (by simp)
  next u hu =>
  split at h
  · exact absurd h (by simp)
  next conv hconv =>
  split at h
  · exact absurd h (by simp)
  next userMsg huser =>
  rw [Message.create_stripped .user hne] at huser
  have huser' := Except.ok.inj huser
  subst huser'
  split at h
  · exact absurd h (by simp)
  next conv1 hadd1 =>
  split at h
  · exact absurd h (by simp)
  next s conv2 hgen =>
  split at h
  · exact absurd h (by simp)
  next botMsg hbot =>
  split at h
  · exact absurd h (by simp)
  next conv3 hadd2 =>
  obtain ⟨h1, h2⟩ := Prod.mk.inj h
  obtain rfl := Except.ok.inj h1
  exact ⟨u, conv, conv1, s, conv2, botMsg, hu, hconv, hadd1, hgen, hbot,
    hadd2, h2.symm⟩

theorem startExecute_empty {llm : Option LLMModel} {r : Rand} {fresh : Nat}
    {msg : String} (h : pyStrip msg = "") :
    startExecute llm r fresh msg
      = .error (.valueError "Initial message cannot be empty") := by
  unfold startExecute
  rw [if_pos h]
  rfl

theorem alternating_pair {a b : Message} (h : a.role ≠ b.role) :
    alternating [a, b] :=
  List.chain'_cons.mpr ⟨h, List.chain'_singleton b⟩

theorem repoGet_mem {u : Nat} {c : Conversation} :
    ∀ {repo : Repo}, repoGet repo u = some c → (u, c) ∈ repo := by
  intro repo
  induction repo with
  | nil => intro h; cases h
  | cons p ps ih =>
    intro h
    obtain ⟨k, v⟩ := p
    by_cases hk : u = k
    · subst hk
      have h' : some v = some c := by
        simpa [repoGet, List.lookup] using h
      obtain rfl := Option.some.inj h'
      exact List.mem_cons_self _ _
    · have h' : repoGet ps u = some c := by
        simpa [repoGet, List.lookup, beq_false_of_ne hk] using h
      exact List.mem_cons_of_mem _ (ih h')

theorem mem_repoSave {repo : Repo} {c : Conversation} {p : Nat × Conversation}
    (h : p ∈ repoSave repo c) : p = (c.conversation_id, c) ∨ p ∈ repo := by
  rcases List.mem_cons.mp h with h | h
  · exact Or.inl h
  · exact Or.inr (List.mem_of_mem_filter h)

theorem firstArgument_ok {t : DebateTopic} {a : String}
    (h : firstArgument t = .ok a) : ∃ rest, t.key_arguments = a :: rest := by
  unfold firstArgument at h
  split at h
  · cases h
  next a' rest heq =>
    obtain rfl := Except.ok.inj h
    exact ⟨rest, heq⟩

theorem Message.create_ok_inv {s : String} {role : Role} {m : Message}
    (h : Message.create s role = .ok m) :
    m = { content := pyStrip s, role := role } := by
  unfold Message.create at h
  split at h
  · cases h
  · exact (Except.ok.inj h).symm

/-- Conformance of the optional LLM collaborator with the
`LLMServiceInterface` contract: a returned `DebateTopic` has passed the
validating constructor (non-empty key-argument list) and a failure is the
typed `LLMServiceError`. -/
def LLMTopicContract : Option LLMModel → Prop
  | none => True
  | some l => (∀ m t, l.genTopic m = .ok t → ¬ t.key_arguments = []) ∧
              (∀ m e, l.genTopic m = .error e → ∃ s, e = .llmServiceError s)

theorem fallbackTopics_args_ne_nil :
    ∀ b ∈ fallbackTopics, ¬ b.key_arguments = [] := by decide

/-- Totality of topic selection under the collaborator contract: it always
returns `.ok`, and any returned topic has a non-empty argument pool. -/
theorem generateTopicForMessage_ok {llm : Option LLMModel} (ti ii : Nat)
    (msg : String) (hc : LLMTopicContract llm) :
    ∃ o, generateTopicForMessage llm ti ii msg = .ok o ∧
      ∀ t, o = some t → ¬ t.key_arguments = [] := by
  have hfall : ∃ t, getFallbackTopicWithIntro ti ii = .ok t
      ∧ ¬ t.key_arguments = [] := by
    obtain ⟨base, hbmem, intro, -, t, ht, -, -, -, hargs, -⟩ :=
      getFallbackTopicWithIntro_spec ti ii
    exact ⟨t, ht, hargs ▸ fallbackTopics_args_ne_nil base hbmem⟩
  obtain ⟨b, hb⟩ := isCasualGreeting_ok msg
  unfold generateTopicForMessage
  cases b with
  | true =>
    rw [hb]
    exact ⟨none, rfl, fun t ht => Option.noConfusion ht⟩
  | false =>
    rw [hb]
    cases llm with
    | none =>
      obtain ⟨t, ht, hargs⟩ := hfall
      refine ⟨some t, ?_, fun t' ht' => by rwa [← Option.some.inj ht']⟩
      show (getFallbackTopicWithIntro ti ii).map some = _
      rw [ht]
      rfl
    | some l =>
      cases hg : l.genTopic msg with
      | ok t =>
        refine ⟨some t, ?_, fun t' ht' => by
          rw [← Option.some.inj ht']; exact hc.1 msg t hg⟩
        show (match l.genTopic msg with
          | Except.ok t => Except.ok (some t)
          | Except.error (Err.llmServiceError _) =>
            (getFallbackTopicWithIntro ti ii).map some
          | Except.error e => Except.error e) = Except.ok (some t)
        rw [hg]
      | error e =>
        obtain ⟨es, rfl⟩ := hc.2 msg e hg
        obtain ⟨t, ht, hargs⟩ := hfall
        refine ⟨some t, ?_, fun t' ht' => by rwa [← Option.some.inj ht']⟩
        show (match l.genTopic msg with
          | Except.ok t => Except.ok (some t)
          | Except.error (Err.llmServiceError _) =>
            (getFallbackTopicWithIntro ti ii).map some
          | Except.error e => Except.error e) = Except.ok (some t)
        rw [hg, ht]
        rfl

/-- Reduction of `_generate_bot_response` on a conversation with no topic
when a topic service is configured. -/
theorem generateBotResponse_step_none (tsLlm llm : Option LLMModel) (r : Rand)
    (c : Conversation) (msg : String) (ht : c.topic = none) :
    generateBotResponse (some tsLlm) llm r c msg =
      match generateTopicForMessage tsLlm r.topicIdx r.introIdx msg with
      | Except.error e => Except.error e
      | Except.ok (some topic) =>
        match firstArgument topic with
        | Except.error e => Except.error e
        | Except.ok arg0 =>
          Except.ok (debateIntro topic arg0, c.set_debate_topic topic)
      | Except.ok none => Except.ok (redirectMessage, c) := by
  unfold generateBotResponse
  rw [ht]

/-- Reduction of `_generate_bot_response` on a conversation with no topic
and no topic service. -/
theorem generateBotResponse_step_none_noTs (llm : Option LLMModel) (r : Rand)
    (c : Conversation) (msg : String) (ht : c.topic = none) :
    generateBotResponse none llm r c msg = Except.ok (redirectMessage, c) := by
  unfold generateBotResponse
  rw [ht]

/-- Reduction of `_generate_bot_response` on a conversation with an
assigned topic when an LLM service is configured. -/
theorem generateBotResponse_step_some (tsv : Option (Option LLMModel))
    (llm : LLMModel) (r : Rand) (c : Conversation) (msg : String)
    (t : DebateTopic) (ht : c.topic = some t) :
    generateBotResponse tsv (some llm) r c msg =
      match generateAiResponse llm r c msg t with
      | Except.ok s => Except.ok (s, c)
      | Except.error (Err.llmServiceError _) =>
        (match generateTemplateResponse r t msg with
         | Except.ok s => Except.ok (s, c)
         | Except.error e => Except.error e)
      | Except.error e => Except.error e := by
  unfold generateBotResponse
  rw [ht]

/-- Reduction of `_generate_bot_response` on a conversation with an
assigned topic when no LLM service is configured. -/
theorem generateBotResponse_step_some_noLlm (tsv : Option (Option LLMModel))
    (r : Rand) (c : Conversation) (msg : String) (t : DebateTopic)
    (ht : c.topic = some t) :
    generateBotResponse tsv none r c msg =
      match generateTemplateResponse r t msg with
      | Except.ok s => Except.ok (s, c)
      | Except.error e => Except.error e := by
  unfold generateBotResponse
  rw [ht]

/-- Case analysis of a successful `_generate_bot_response` call on a
conversation with no assigned topic. -/
theorem generateBotResponse_none_topic {ts : Option (Option LLMModel)}
    {llm : Option LLMModel} {r : Rand} {c : Conversation} {msg s : String}
    {c₂ : Conversation} (ht : c.topic = none)
    (h : generateBotResponse ts llm r c msg = .ok (s, c₂)) :
    (s = redirectMessage ∧ c₂ = c) ∨
    (∃ tsLlm t arg0 rest, ts = some tsLlm ∧
      generateTopicForMessage tsLlm r.topicIdx r.introIdx msg = .ok (some t) ∧
      t.key_arguments = arg0 :: rest ∧
      s = debateIntro t arg0 ∧ c₂ = c.set_debate_topic t) := by
  cases ts with
  | none =>
    rw [generateBotResponse_step_none_noTs llm r c msg ht] at h
    obtain ⟨h1, h2⟩ := Prod.mk.inj (Except.ok.inj h)
    exact Or.inl ⟨h1.symm, h2.symm⟩
  | some tsLlm =>
    rw [generateBotResponse_step_none tsLlm llm r c msg ht] at h
    cases hgen : generateTopicForMessage tsLlm r.topicIdx r.introIdx msg with
    | error e =>
      rw [hgen] at h
      exact Except.noConfusion h
    | ok o =>
      rw [hgen] at h
      cases o with
      | none =>
        obtain ⟨h1, h2⟩ := Prod.mk.inj (Except.ok.inj h)
        exact Or.inl ⟨h1.symm, h2.symm⟩
      | some topic =>
        replace h : (match firstArgument topic with
            | Except.error e => Except.error e
            | Except.ok arg0 =>
              Except.ok (debateIntro topic arg0, c.set_debate_topic topic))
            = Except.ok (s, c₂) := h
        cases hfa : firstArgument topic with
        | error e =>
          rw [hfa] at h
          exact Except.noConfusion h
        | ok arg0 =>
          rw [hfa] at h
          obtain ⟨rest, hrest⟩ := firstArgument_ok hfa
          obtain ⟨h1, h2⟩ := Prod.mk.inj (Except.ok.inj h)
          exact Or.inr ⟨tsLlm, topic, arg0, rest, rfl, hgen, hrest, h1.symm, h2.symm⟩

/-! ## Claim theorems -/

/-- C1: Appending a message whose role equals the current last message's
role fails with the alternation `ValueError` (the failing `add_message`
returns before mutating, so the log is unchanged), and the invariant
`messages[i].role ≠ messages[i+1].role` — stated by `alternating`, which is
equivalent to the indexed formulation — is preserved by `add_message`,
holds for every conversation returned by `start`, and is maintained by
`continue` for the returned conversation and the whole repository. -/
theorem C1_role_alternation :
    (∀ (c : Conversation) (m last : Message), c.messages.getLast? = some last →
      last.role = m.role →
      c.add_message m = .error (.valueError
        ("Cannot add consecutive " ++ m.role.pyStr ++ " messages"))) ∧
    (∀ l : List Message, alternating l ↔ ∀ (i : Nat) (h : i + 1 < l.length),
      (l.get ⟨i, Nat.lt_of_succ_lt h⟩).role ≠ (l.get ⟨i + 1, h⟩).role) ∧
    (∀ (c : Conversation) (m : Message) (c' : Conversation),
      alternating c.messages → c.add_message m = .ok c' →
      alternating c'.messages) ∧
    (∀ (llm : Option LLMModel) (r : Rand) (fresh : Nat) (msg : String)
      (c : Conversation), startExecute llm r fresh msg = .ok c →
      alternating c.messages) ∧
    (∀ (ts : Option (Option LLMModel)) (llm : Option LLMModel)
      (up : String → Option Nat) (r : Rand) (repo : Repo) (cid msg : String)
      (c' : Conversation) (repo' : Repo),
      (∀ p ∈ repo, alternating p.2.messages) →
      continueExecute ts llm up r repo cid msg = (.ok c', repo') →
      alternating c'.messages ∧ ∀ p ∈ repo', alternating p.2.messages) := by
  refine ⟨fun c m last => add_message_same_role,
    fun l => alternating_iff_get,
    fun c m c' => alternating_add_message, ?_, ?_⟩
  · intro llm r fresh msg c h
    by_cases hne : pyStrip msg = ""
    · rw [startExecute_empty hne] at h
      exact Except.noConfusion h
    · rcases startExecute_run llm r fresh msg hne with
        ⟨e, -, he⟩ | ⟨-, hok⟩ | ⟨t, -, ⟨-, herr⟩ | ⟨arg0, rest, -, hok⟩⟩
      · rw [he] at h
        exact Except.noConfusion h
      · rw [hok] at h
        obtain rfl := Except.ok.inj h
        exact alternating_pair (by simp)
      · rw [herr] at h
        exact Except.noConfusion h
      · rw [hok] at h
        obtain rfl := Except.ok.inj h
        exact alternating_pair (by simp)
  · intro ts llm up r repo cid msg c' repo' hrepo h
    obtain ⟨hne, u, conv, conv1, s, conv2, botMsg, hu, hconv, hadd1, hgen,
      hbot, hadd2, hsave⟩ := continueExecute_ok_inv h
    have hconvalt : alternating conv.messages := hrepo _ (repoGet_mem hconv)
    have h1 : alternating conv1.messages := alternating_add_message hconvalt hadd1
    have h2 : alternating conv2.messages := by
      rw [(generateBotResponse_messages hgen).1]
      exact h1
    have h3 : alternating c'.messages := alternating_add_message h2 hadd2
    refine ⟨h3, ?_⟩
    intro p hp
    rcases mem_repoSave (hsave ▸ hp) with rfl | hmem
    · exact h3
    · exact hrepo _ hmem

/-- Witness for C1: a same-role append on a concrete conversation fails
with the exact `ValueError`, and the conversation returned by a concrete
`start` run satisfies the alternation invariant. -/
theorem C1_role_alternation_witness :
    (Conversation.add_message
        { conversation_id := 0, topic := none,
          messages := [{ content := "a", role := .user }] }
        { content := "b", role := .user }
      = .error (.valueError
          ("Cannot add consecutive " ++ (Role.user).pyStr ++ " messages"))) ∧
    alternating [{ content := "hi", role := .user },
                 { content := redirectMessage, role := .bot }] := by
  constructor
  · exact C1_role_alternation.1
      { conversation_id := 0, topic := none,
        messages := [{ content := "a", role := .user }] }
      { content := "b", role := .user }
      { content := "a", role := .user } rfl rfl
  · exact C1_role_alternation.2.2.2.1 none {} 0 "hi"
      { conversation_id := 0, topic := none,
        messages := [{ content := "hi", role := .user },
                     { content := redirectMessage, role := .bot }] }
      (by decide)

/-- C10: the greeting classifier terminates normally and returns a boolean
on every input string: the `ZeroDivisionError` branch of the embedded
classifier (the only exceptional exit, guarding the
`pattern_words / total_words` division) is unreachable, because the
division is evaluated only when a non-empty greeting phrase occurs inside
the lowercased trimmed message, which forces at least one word. -/
theorem C10_greeting_classifier_total (message : String) :
    ∃ b, isCasualGreeting message = .ok b :=
  isCasualGreeting_ok message

/-- C6: `"hi"` is classified as a casual greeting, topic selection returns
`None` for it, and a `start` run on `"hi"` leaves the topic unassigned and
replies with the fixed redirect line asking for a debate-worthy opinion. -/
theorem C6_hi_greeting_redirect (llm : Option LLMModel) (r : Rand) (fresh : Nat) :
    isCasualGreeting "hi" = .ok true ∧
    generateTopicForMessage llm r.topicIdx r.introIdx "hi" = .ok none ∧
    startExecute llm r fresh "hi" = .ok
      { conversation_id := fresh, topic := none,
        messages := [{ content := "hi", role := .user },
                     { content := redirectMessage, role := .bot }] } := by
  have hgen : generateTopicForMessage llm r.topicIdx r.introIdx "hi" = .ok none := rfl
  refine ⟨by decide, hgen, ?_⟩
  rcases startExecute_run llm r fresh "hi" (by decide) with
    ⟨e, he, -⟩ | ⟨-, hok⟩ | ⟨t, hsome, -⟩
  · rw [hgen] at he
    exact Except.noConfusion he
  · exact hok
  · rw [hgen] at hsome
    exact Option.noConfusion (Except.ok.inj hsome)

/-- C3: the three `continue` failure modes — blank message, malformed
conversation id, unknown conversation id — each fail with the exact
`ValueError` the source raises, and each leaves the repository state
unchanged (no message appended, no topic assigned, no save). -/
theorem C3_continue_failures (ts : Option (Option LLMModel))
    (llm : Option LLMModel) (up : String → Option Nat) (r : Rand)
    (repo : Repo) (cid msg : String) :
    (pyStrip msg = "" →
      continueExecute ts llm up r repo cid msg
        = (.error (.valueError "User message cannot be empty"), repo)) ∧
    (¬ pyStrip msg = "" → up cid = none →
      continueExecute ts llm up r repo cid msg
        = (.error (.valueError ("Invalid conversation ID format: " ++ cid)), repo)) ∧
    (∀ u, ¬ pyStrip msg = "" → up cid = some u → repoGet repo u = none →
      continueExecute ts llm up r repo cid msg
        = (.error (.valueError ("Conversation with ID " ++ cid ++ " not found")), repo)) := by
  refine ⟨?_, ?_, ?_⟩
  · intro h
    unfold continueExecute
    rw [if_pos h]
  · intro hne hup
    unfold continueExecute
    rw [if_neg hne]
    simp only [hup]
  · intro u hne hup hget
    unfold continueExecute
    rw [if_neg hne]
    simp only [hup, hget]

/-- Witness for C3 at concrete inputs exercising all three failure modes. -/
theorem C3_continue_failures_witness :
    (continueExecute none none (fun _ => none) {} [] "x" "  "
      = (.error (.valueError "User message cannot be empty"), [])) ∧
    (continueExecute none none (fun _ => none) {} [] "x" "hello"
      = (.error (.valueError ("Invalid conversation ID format: " ++ "x")), [])) ∧
    (continueExecute none none (fun _ => some 7) {} [] "x" "hello"
      = (.error (.valueError ("Conversation with ID " ++ "x" ++ " not found")), [])) :=
  ⟨(C3_continue_failures none none (fun _ => none) {} [] "x" "  ").1 (by decide),
   (C3_continue_failures none none (fun _ => none) {} [] "x" "hello").2.1
     (by decide) rfl,
   (C3_continue_failures none none (fun _ => some 7) {} [] "x" "hello").2.2 7
     (by decide) rfl rfl⟩

/-- C5: the topic transitions at most once, from `None` to a value, and the
orchestration layer never replaces or removes it afterwards: the entity's
`set_debate_topic` itself performs no single-assignment check (it
unconditionally overwrites, even when a topic is already present), while
`_generate_bot_response` returns the conversation unmodified whenever a
topic is assigned, so a `continue` run on a conversation with topic `t`
returns a conversation still carrying exactly topic `t` — the same stance
and argument pool response generation keeps using. -/
theorem C5_topic_set_once :
    (∀ (c : Conversation) (t : DebateTopic),
      (c.set_debate_topic t).topic = some t) ∧
    (∀ (ts : Option (Option LLMModel)) (llm : Option LLMModel) (r : Rand)
      (c : Conversation) (msg s : String) (c₂ : Conversation) (t : DebateTopic),
      c.topic = some t → generateBotResponse ts llm r c msg = .ok (s, c₂) →
      c₂ = c) ∧
    (∀ (ts : Option (Option LLMModel)) (llm : Option LLMModel)
      (up : String → Option Nat) (r : Rand) (repo : Repo) (cid msg : String)
      (c' : Conversation) (repo' : Repo) (u : Nat) (conv : Conversation)
      (t : DebateTopic),
      continueExecute ts llm up r repo cid msg = (.ok c', repo') →
      up cid = some u → repoGet repo u = some conv → conv.topic = some t →
      c'.topic = some t) := by
  refine ⟨fun c t => rfl, ?_, ?_⟩
  · intro ts llm r c msg s c₂ t ht h
    exact generateBotResponse_topic_some ht h
  · intro ts llm up r repo cid msg c' repo' u conv t h hu hconv ht
    obtain ⟨hne, u', conv'', conv1, s, conv2, botMsg, hu', hconv', hadd1,
      hgen, hbot, hadd2, -⟩ := continueExecute_ok_inv h
    obtain rfl := Option.some.inj (hu.symm.trans hu')
    obtain rfl := Option.some.inj (hconv.symm.trans hconv')
    obtain ⟨-, rfl⟩ := add_message_ok_iff.mp hadd1
    have h1 : ({ conv with messages := conv.messages
        ++ [{ content := pyStrip msg, role := .user }] } : Conversation).topic
        = some t := ht
    obtain rfl := generateBotResponse_topic_some h1 hgen
    obtain ⟨-, rfl⟩ := add_message_ok_iff.mp hadd2
    exact ht

/-- Concrete topic used by witnesses. -/
def witTopic : DebateTopic :=
  { title := "Cats rule", description := "Cats secretly rule the world",
    bot_stance := .for_, key_arguments := ["Cats nap a lot", "Cats stare"],
    topic_id := 3, created_at := 9, metadata := [] }

/-- A second concrete topic, used to exhibit entity-level re-assignment. -/
def witTopicB : DebateTopic :=
  { title := "Dogs rule", description := "Dogs secretly rule the world",
    bot_stance := .against, key_arguments := ["Dogs are loyal"],
    topic_id := 4, created_at := 8, metadata := [] }

/-- Concrete conversation with an assigned topic, used by witnesses. -/
def witConv : Conversation :=
  { conversation_id := 7, topic := some witTopic,
    messages := [{ content := "hi there", role := .user },
                 { content := "reply", role := .bot }] }

/-- The template reply the concrete runs below produce. -/
def witReply : String :=
  "Interesting point! But I still maintain that cats rule. Consider this: Cats nap a lot. How do you respond to that evidence?"

/-- The conversation after the concrete `continue` run below. -/
def witConvGrown : Conversation :=
  { conversation_id := 7, topic := some witTopic,
    messages := [{ content := "hi there", role := .user },
                 { content := "reply", role := .bot },
                 { content := "continue please", role := .user },
                 { content := witReply, role := .bot }] }

/-- Witness for C5: the entity overwrites an already-assigned topic; a
response-generation call and a full `continue` run both leave the assigned
topic in place. -/
theorem C5_topic_set_once_witness :
    (witConv.set_debate_topic witTopicB).topic = some witTopicB ∧
    witConv = witConv ∧
    witConvGrown.topic = some witTopic := by
  refine ⟨C5_topic_set_once.1 witConv witTopicB, ?_, ?_⟩
  · exact C5_topic_set_once.2.1 none none {} witConv "m" witReply witConv
      witTopic rfl (by decide)
  · exact C5_topic_set_once.2.2 none none (fun _ => some 7) {} [(7, witConv)]
      "cid" "continue please" witConvGrown [(7, witConvGrown)] 7 witConv
      witTopic (by decide) rfl rfl rfl

/-- C2: `start` on a blank message fails with the validation error; on any
non-blank message, under the LLM collaborator contract, it returns a
conversation of exactly two messages — the user message carrying the
trimmed input and then a bot message. -/
theorem C2_start_two_messages (llm : Option LLMModel) (r : Rand) (fresh : Nat)
    (msg : String) :
    (pyStrip msg = "" → startExecute llm r fresh msg
      = .error (.valueError "Initial message cannot be empty")) ∧
    (¬ pyStrip msg = "" → LLMTopicContract llm →
      ∃ c, startExecute llm r fresh msg = .ok c ∧
        c.messages.length = 2 ∧
        c.messages.head? = some { content := pyStrip msg, role := .user } ∧
        ∃ b, c.messages.getLast? = some b ∧ b.role = .bot) := by
  constructor
  · exact startExecute_empty
  · intro hne hc
    obtain ⟨o, ho, hargs⟩ :=
      generateTopicForMessage_ok r.topicIdx r.introIdx msg hc
    rcases startExecute_run llm r fresh msg hne with
      ⟨e, he, -⟩ | ⟨-, hok⟩ | ⟨t, hsome, hcase⟩
    · rw [ho] at he
      exact Except.noConfusion he
    · exact ⟨_, hok, rfl, rfl, _, rfl, rfl⟩
    · obtain rfl : o = some t := Except.ok.inj (ho.symm.trans hsome)
      rcases hcase with ⟨hnil, -⟩ | ⟨arg0, rest, -, hok⟩
      · exact absurd hnil (hargs t rfl)
      · exact ⟨_, hok, rfl, rfl, _, rfl, rfl⟩

/-- Witness for C2: a blank run fails; a concrete non-blank run yields
exactly two messages, user-then-bot, with the trimmed input first. -/
theorem C2_start_two_messages_witness :
    (startExecute none {} 0 "   "
      = .error (.valueError "Initial message cannot be empty")) ∧
    (∃ c, startExecute none {} 0 " flat earth " = .ok c ∧
      c.messages.length = 2 ∧
      c.messages.head? = some { content := pyStrip " flat earth ", role := .user } ∧
      ∃ b, c.messages.getLast? = some b ∧ b.role = .bot) :=
  ⟨(C2_start_two_messages none {} 0 "   ").1 (by decide),
   (C2_start_two_messages none {} 0 " flat earth ").2 (by decide) trivial⟩

/-- C7: whenever topic selection assigns a topic on a turn — in `start`, or
in `continue` on a conversation that had no topic — the bot message of that
same turn embeds the topic's first key argument verbatim as a substring,
contains the stance word (`"support"`/`"oppose"`), and ends with `'?'`. -/
theorem C7_intro_embeds_first_argument :
    (∀ (llm : Option LLMModel) (r : Rand) (fresh : Nat) (msg : String)
      (c : Conversation) (t : DebateTopic),
      startExecute llm r fresh msg = .ok c → c.topic = some t →
      ∃ b arg0, c.messages.getLast? = some b ∧ b.role = .bot ∧
        t.key_arguments.head? = some arg0 ∧
        arg0.data <:+: b.content.data ∧
        (stanceWord t.bot_stance).data <:+: b.content.data ∧
        b.content.data.getLast? = some '?') ∧
    (∀ (ts : Option (Option LLMModel)) (llm : Option LLMModel)
      (up : String → Option Nat) (r : Rand) (repo : Repo) (cid msg : String)
      (c' : Conversation) (repo' : Repo) (u : Nat) (conv : Conversation)
      (t : DebateTopic),
      continueExecute ts llm up r repo cid msg = (.ok c', repo') →
      up cid = some u → repoGet repo u = some conv → conv.topic = none →
      c'.topic = some t →
      ∃ b arg0, c'.messages.getLast? = some b ∧ b.role = .bot ∧
        t.key_arguments.head? = some arg0 ∧
        arg0.data <:+: b.content.data ∧
        (stanceWord t.bot_stance).data <:+: b.content.data ∧
        b.content.data.getLast? = some '?') := by
  constructor
  · intro llm r fresh msg c t h ht
    by_cases hne : pyStrip msg = ""
    · rw [startExecute_empty hne] at h
      exact Except.noConfusion h
    rcases startExecute_run llm r fresh msg hne with
      ⟨e, -, he⟩ | ⟨-, hok⟩ | ⟨t', -, ⟨-, herr⟩ | ⟨arg0, rest, hargs, hok⟩⟩
    · rw [he] at h
      exact Except.noConfusion h
    · rw [hok] at h
      obtain rfl := Except.ok.inj h
      exact Option.noConfusion ht
    · rw [herr] at h
      exact Except.noConfusion h
    · rw [hok] at h
      obtain rfl := Except.ok.inj h
      obtain rfl : t' = t := Option.some.inj ht
      refine ⟨{ content := debateIntro t' arg0, role := .bot }, arg0,
        rfl, rfl, ?_, debateIntro_contains_arg t' arg0,
        debateIntro_contains_stanceWord t' arg0, debateIntro_getLast? t' arg0⟩
      rw [hargs]
      rfl
  · intro ts llm up r repo cid msg c' repo' u conv t h hu hconv htnone htopic
    obtain ⟨hne, u', conv'', conv1, s, conv2, botMsg, hu', hconv', hadd1,
      hgen, hbot, hadd2, -⟩ := continueExecute_ok_inv h
    obtain rfl := Option.some.inj (hu.symm.trans hu')
    obtain rfl := Option.some.inj (hconv.symm.trans hconv')
    obtain ⟨-, rfl⟩ := add_message_ok_iff.mp hadd1
    have h1 : ({ conv with messages := conv.messages
        ++ [{ content := pyStrip msg, role := .user }] } : Conversation).topic
        = none := htnone
    rcases generateBotResponse_none_topic h1 hgen with
      ⟨hs, rfl⟩ | ⟨tsLlm, t2, arg0, rest, -, -, hargs2, hs, rfl⟩
    · obtain ⟨-, rfl⟩ := add_message_ok_iff.mp hadd2
      exact Option.noConfusion (htnone.symm.trans htopic)
    · obtain ⟨-, rfl⟩ := add_message_ok_iff.mp hadd2
      obtain rfl : t2 = t := Option.some.inj htopic
      subst hs
      obtain rfl := Message.create_ok_inv hbot
      rw [pyStrip_debateIntro] at hadd2 ⊢
      refine ⟨{ content := debateIntro t2 arg0, role := .bot }, arg0,
        ?_, rfl, ?_, debateIntro_contains_arg t2 arg0,
        debateIntro_contains_stanceWord t2 arg0, debateIntro_getLast? t2 arg0⟩
      · show (_ ++ [({ content := debateIntro t2 arg0, role := .bot } : Message)]).getLast?
          = _
        rw [List.getLast?_concat]
      · rw [hargs2]
        rfl

/-- An LLM stand-in whose topic generation returns `witTopic`. -/
def witLlm : LLMModel :=
  { isMock := false, genTopic := fun _ => .ok witTopic,
    genReply := fun _ => .error (.llmServiceError "x") }

/-- The conversation returned by `start` with `witLlm` on "dogs drool". -/
def witStartConv : Conversation :=
  { conversation_id := 0, topic := some witTopic,
    messages := [{ content := "dogs drool", role := .user },
                 { content := "I actually support the idea that cats rule. Here's why I believe this: Cats nap a lot. What do you think about that?",
                   role := .bot }] }

/-- Witness for C7 on a concrete `start` run that assigns `witTopic`. -/
theorem C7_intro_embeds_first_argument_witness :
    ∃ b arg0, witStartConv.messages.getLast? = some b ∧ b.role = .bot ∧
      witTopic.key_arguments.head? = some arg0 ∧
      arg0.data <:+: b.content.data ∧
      (stanceWord witTopic.bot_stance).data <:+: b.content.data ∧
      b.content.data.getLast? = some '?' :=
  C7_intro_embeds_first_argument.1 (some witLlm) {} 0 "dogs drool"
    witStartConv witTopic (by decide) rfl

/-- C8: every fallback topic is a new topic whose title is one of the 6
fixed intro phrases, a space, and the lowercased title of one of the 5
predefined topics; its metadata marks `is_fallback` and maps
`original_title` to that predefined topic's title exactly as stored; and
its description, stance, arguments, id and creation time are copied from
the base topic (the argument list equal to the base's, constructed through
the copying constructor). -/
theorem C8_fallback_topic_structure (ti ii : Nat) :
    fallbackTopics.length = 5 ∧ fallbackIntros.length = 6 ∧
    ∃ base ∈ fallbackTopics, ∃ intro ∈ fallbackIntros, ∃ t,
      getFallbackTopicWithIntro ti ii = .ok t ∧
      t.title = intro ++ " " ++ pyLower base.title ∧
      t.metadata = [("is_fallback", .bool true),
                    ("original_title", .str base.title)] ∧
      t.description = base.description ∧
      t.bot_stance = base.bot_stance ∧
      t.key_arguments = base.key_arguments ∧
      t.topic_id = base.topic_id ∧
      t.created_at = base.created_at := by
  obtain ⟨base, hbmem, intro, himem, t, ht, h1, h2, h3, h4, h5, h6, h7⟩ :=
    getFallbackTopicWithIntro_spec ti ii
  exact ⟨rfl, rfl, base, hbmem, intro, himem, t, ht, h1, h7, h2, h3, h4, h5, h6⟩

/-- C4 counterexample: a `continue`-turn reply after a typed LLM error is
produced by the template strategy (`_generate_template_response`), not by
strategy 2, the heuristic strategy (`_generate_enhanced_mock_response`):
on this concrete run the reply is a template string that no choice of
random seed or conversation depth could make the heuristic strategy emit. -/
theorem C4_counterexample :
    generateBotResponse (some none) (some witLlm) {} witConv "you are wrong"
      = .ok (witReply, witConv) ∧
    witReply ∉ allHeuristicOutputs witTopic := by
  constructor
  · decide
  · decide

/-- C4 (amended): for a conversation with an assigned topic and a real
(non-stand-in) LLM collaborator whose reply call fails with the typed
`LLMServiceError`, the bot reply of that turn is produced by the template
strategy (strategy 3), and the LLM error is never surfaced to the caller. -/
theorem C4_llm_error_template_fallback (ts : Option (Option LLMModel))
    (llm : LLMModel) (r : Rand) (c : Conversation) (t : DebateTopic)
    (msg e : String) (ht : c.topic = some t) (hmock : llm.isMock = false)
    (hfail : llm.genReply (buildPrompt c msg t) = .error (.llmServiceError e))
    (hargs : ¬ t.key_arguments = []) :
    ∃ s, generateTemplateResponse r t msg = .ok s ∧
      generateBotResponse ts (some llm) r c msg = .ok (s, c) := by
  obtain ⟨arg, harg, -⟩ := pyChoice_ok_of_ne_nil hargs r.tmplArgIdx
  have htm : ∃ s, generateTemplateResponse r t msg = .ok s := by
    unfold generateTemplateResponse
    rw [harg]
    simp only [exceptBind_ok]
    exact ⟨_, rfl⟩
  obtain ⟨s, hs⟩ := htm
  have hair : generateAiResponse llm r c msg t = .error (.llmServiceError e) := by
    unfold generateAiResponse
    rw [hmock, if_neg (by simp), hfail]
  refine ⟨s, hs, ?_⟩
  rw [generateBotResponse_step_some ts llm r c msg t ht, hair, hs]

/-- Witness for C4 (amended) on a concrete failing-LLM run. -/
theorem C4_llm_error_template_fallback_witness :
    ∃ s, generateTemplateResponse {} witTopic "you are wrong" = .ok s ∧
      generateBotResponse none (some witLlm) {} witConv "you are wrong"
        = .ok (s, witConv) :=
  C4_llm_error_template_fallback none witLlm {} witConv witTopic
    "you are wrong" "x" rfl rfl rfl (by decide)

/-- Concrete topic for the C9 counterexample: the first argument's leading
keywords overlap the user message twice, the second argument's only once. -/
def c9Topic : DebateTopic :=
  { title := "t9", description := "d9", bot_stance := .for_,
    key_arguments := ["alpha beta gamma", "delta epsilon zeta"],
    topic_id := 0, created_at := 0, metadata := [] }

/-- Concrete early-depth conversation for the C9 counterexample. -/
def c9Conv : Conversation :=
  { conversation_id := 1, topic := some c9Topic, messages := [] }

/-- C9 counterexample: when several arguments overlap, the heuristic picks
uniformly among them rather than the best-overlapping one: with seed 1 it
embeds the argument with strictly smaller leading-keyword overlap. -/
theorem C9_counterexample :
    generateEnhancedMockResponse { mockArgIdx := 1 } c9Conv
        "alpha beta delta" c9Topic
      = .ok "That's exactly what I'd expect you to say, but delta epsilon zeta How do you explain that?" ∧
    leadingOverlapScore "alpha beta delta" "alpha beta gamma" = 2 ∧
    leadingOverlapScore "alpha beta delta" "delta epsilon zeta" = 1 ∧
    c9Topic.key_arguments = ["alpha beta gamma", "delta epsilon zeta"] := by
  refine ⟨by decide, by decide, by decide, rfl⟩

/-- C9 (amended): the heuristic strategy selects its argument uniformly at
random among the key arguments any of whose first three lowercased
keywords occur in the user's lowercased message, falling back to a
uniformly random argument among all of them only when none overlaps; the
opener comes from the "early" set when the (capped) recent-message count is
at most 2 and from the "deep" set otherwise; a closer comes from the fixed
ending set; and the output is `opener ++ " " ++ argument ++ " " ++ closer`. -/
theorem C9_heuristic_structure (r : Rand) (c : Conversation) (msg : String)
    (t : DebateTopic) (hargs : ¬ t.key_arguments = []) :
    ∃ starter argument ending,
      generateEnhancedMockResponse r c msg t
        = .ok (starter ++ " " ++ argument ++ " " ++ ending) ∧
      ((relevantArguments t msg = [] ∧ argument ∈ t.key_arguments) ∨
       (¬ relevantArguments t msg = [] ∧ argument ∈ relevantArguments t msg)) ∧
      starter ∈ (if (c.get_recent_messages).length ≤ 2 then earlyStarters
                 else deepStarters) ∧
      ending ∈ mockEndings := by
  obtain ⟨st, hstEq, hstMem⟩ := pyChoice_ok_of_ne_nil
    (l := if (c.get_recent_messages).length ≤ 2 then earlyStarters
          else deepStarters)
    (by split <;> simp [earlyStarters, deepStarters]) r.mockStarterIdx
  obtain ⟨en, henEq, henMem⟩ := pyChoice_ok_of_ne_nil
    (l := mockEndings) (by simp [mockEndings]) r.mockEndingIdx
  by_cases hrel : relevantArguments t msg = []
  · obtain ⟨a, ha, hamem⟩ := pyChoice_ok_of_ne_nil hargs r.mockArgIdx
    refine ⟨st, a, en, ?_, Or.inl ⟨hrel, hamem⟩, hstMem, henMem⟩
    unfold generateEnhancedMockResponse
    rw [if_neg (by simpa using hrel), ha]
    simp only [exceptBind_ok]
    rw [hstEq]
    simp only [exceptBind_ok]
    rw [henEq]
    simp only [exceptBind_ok]
    rfl
  · obtain ⟨a, ha, hamem⟩ := pyChoice_ok_of_ne_nil hrel r.mockArgIdx
    refine ⟨st, a, en, ?_, Or.inr ⟨hrel, hamem⟩, hstMem, henMem⟩
    unfold generateEnhancedMockResponse
    rw [if_pos (by simpa using hrel), ha]
    simp only [exceptBind_ok]
    rw [hstEq]
    simp only [exceptBind_ok]
    rw [henEq]
    simp only [exceptBind_ok]
    rfl

/-- Witness for C9 (amended) on a concrete run with one overlapping
argument. -/
theorem C9_heuristic_structure_witness :
    ∃ starter argument ending,
      generateEnhancedMockResponse {} witConv "naps" witTopic
        = .ok (starter ++ " " ++ argument ++ " " ++ ending) ∧
      ((relevantArguments witTopic "naps" = [] ∧
         argument ∈ witTopic.key_arguments) ∨
       (¬ relevantArguments witTopic "naps" = [] ∧
         argument ∈ relevantArguments witTopic "naps")) ∧
      starter ∈ (if (witConv.get_recent_messages).length ≤ 2 then earlyStarters
                 else deepStarters) ∧
      ending ∈ mockEndings :=
  C9_heuristic_structure {} witConv "naps" witTopic (by decide)

end StubbornChatbot
